import Mathlib

/-!
Verification of the YouTube recorder automation scripts.

The Python modules are shallowly embedded: pure helpers (`utils.py`,
`url_processor.py` line scanning, `file_manager.py` name generation) become
Lean functions on strings and lists; the effectful control flow of
`file_manager.py` and `video_processor.py` is embedded as functions from
explicit outcome oracles (standing for the OS / OBS / browser responses) to
a result together with a trace of the externally visible actions.
-/

/- ===== Python string primitives ===== -/

/-- Whitespace characters recognised by Python `str.strip()` and the regex
class `\s` (the ASCII range used by this code base). -/
def isPySpace (c : Char) : Bool :=
  c = ' ' || c = '\t' || c = '\n' || c = '\r' || c = Char.ofNat 11 || c = Char.ofNat 12

/-- Python `str.strip()` on a character list. -/
def pyStripChars (l : List Char) : List Char :=
  ((l.dropWhile isPySpace).reverse.dropWhile isPySpace).reverse

/-- Python `str.strip()`. -/
def pyStrip (s : String) : String := ⟨pyStripChars s.toList⟩

def isDigitChar (c : Char) : Bool := '0' ≤ c && c ≤ '9'

def digitVal (c : Char) : Nat := c.toNat - '0'.toNat

/-- Value of a non-empty all-digit character list, `none` otherwise. -/
def parseDigits (l : List Char) : Option Nat :=
  if l = [] then none
  else if l.all isDigitChar then some (l.foldl (fun a c => a * 10 + digitVal c) 0)
  else none

/-- Python `int(s)` on a decimal string: surrounding whitespace, an optional
sign, then a non-empty run of digits; `none` models a raised `ValueError`. -/
def pyInt (s : String) : Option Int :=
  match pyStripChars s.toList with
  | '+' :: rest => (parseDigits rest).map (fun n => (n : Int))
  | '-' :: rest => (parseDigits rest).map (fun n => -(n : Int))
  | rest => (parseDigits rest).map (fun n => (n : Int))

/-- Python `s.split(':')` on a character list: always at least one piece,
`[]` input gives `[[]]`, separators at the ends give empty pieces. -/
def splitOnColonChars : List Char → List (List Char)
  | [] => [[]]
  | c :: rest =>
    let r := splitOnColonChars rest
    if c = ':' then [] :: r
    else
      match r with
      | [] => [[c]]
      | h :: t => (c :: h) :: t

/-- Python `s.split(':')`. -/
def splitColon (s : String) : List String :=
  (splitOnColonChars s.toList).map (fun l => ⟨l⟩)

/-- `listBegins s pat` is Python `s.startswith(pat)` on character lists. -/
def listBegins : List Char → List Char → Bool
  | _, [] => true
  | [], _ :: _ => false
  | c :: cs, p :: ps => c = p && listBegins cs ps

/-- `containsSeq s pat` is Python `pat in s` on character lists. -/
def containsSeq : List Char → List Char → Bool
  | [], pat => pat.isEmpty
  | c :: rest, pat => listBegins (c :: rest) pat || containsSeq rest pat

/-- ASCII lower-casing, as Python `str.lower()` acts on the URLs here. -/
def asciiLower (c : Char) : Char :=
  if 'A' ≤ c && c ≤ 'Z' then Char.ofNat (c.toNat + 32) else c

def lowerChars (l : List Char) : List Char := l.map asciiLower

/- ===== utils.py ===== -/

/-- Characters matched by the first substitution `[\s|:]+` of
`sanitizar_nombre_archivo`. -/
def isSepChar (c : Char) : Bool := isPySpace c || c = '|' || c = ':'

/-- `re.sub(r'[\s|:]+', '_', s)`: every maximal run of separator characters
becomes a single underscore.  The boolean flag records whether the previous
character belonged to such a run. -/
def collapseSeps : Bool → List Char → List Char
  | _, [] => []
  | inSep, c :: rest =>
    if isSepChar c then
      if inSep then collapseSeps true rest
      else '_' :: collapseSeps true rest
    else c :: collapseSeps false rest

/-- Characters removed by the second substitution `[\\/*?"<>|]`. -/
def forbiddenChar (c : Char) : Bool :=
  c = '\\' || c = '/' || c = '*' || c = '?' || c = '"' || c = '<' || c = '>' || c = '|'

/-- `utils.sanitizar_nombre_archivo`: collapse whitespace, `|` and `:` runs to
`_`, delete the remaining characters invalid in file names, truncate to 150
characters. -/
def sanitizar_nombre_archivo (nombre : String) : String :=
  ⟨((collapseSeps false nombre.toList).filter (fun c => !forbiddenChar c)).take 150⟩

/-- The pieces of `utils.parsear_duracion_a_segundos` after the split: split
the stripped input on `:`, keep the pieces that are non-blank, and convert
every kept piece with `int`; `none` models the `ValueError` path. -/
def duracionPartes (s : String) : Option (List Int) :=
  (((pyStrip s).toList |> splitOnColonChars).filter
      (fun p => pyStripChars p ≠ [])).mapM (fun p => pyInt ⟨p⟩)

/-- `utils.parsear_duracion_a_segundos`. -/
def parsear_duracion_a_segundos (duration_str : String) : Int :=
  if pyStrip duration_str = "" then 0
  else
    match duracionPartes duration_str with
    | none => 0
    | some [h, m, s] => h * 3600 + m * 60 + s
    | some [m, s] => m * 60 + s
    | some [x] => x
    | some _ => 0

/-- The duration parser exactly as the claim words it: the split pieces that
are kept are those that are non-empty (blank pieces made only of whitespace
are kept too, and then count as non-numeric). -/
def parsear_duracion_segun_claim (duration_str : String) : Int :=
  if pyStrip duration_str = "" then 0
  else
    match (((pyStrip duration_str).toList |> splitOnColonChars).filter
        (fun p => p ≠ [])).mapM (fun p => pyInt ⟨p⟩) with
    | none => 0
    | some [h, m, s] => h * 3600 + m * 60 + s
    | some [m, s] => m * 60 + s
    | some [x] => x
    | some _ => 0

/- ===== url_processor.py ===== -/

/-- Python `linea.lstrip('# ')`: drop leading `#` and space characters. -/
def lstripHashSpaceChars (l : List Char) : List Char :=
  l.dropWhile (fun c => c = '#' || c = ' ')

/-- The domain test of `URLProcessor._validar_url_youtube`:
`any(domain in url.lower() for domain in ['youtube.com', 'youtu.be', 'www.youtube.com'])`. -/
def url_tiene_dominio_youtube (url : String) : Bool :=
  containsSeq (lowerChars url.toList) "youtube.com".toList ||
  containsSeq (lowerChars url.toList) "youtu.be".toList ||
  containsSeq (lowerChars url.toList) "www.youtube.com".toList

/-- `URLProcessor._validar_url_youtube`: an empty url is rejected, otherwise
the YouTube-domain containment test decides. -/
def validar_url_youtube (url : String) : Bool :=
  if url = "" then false else url_tiene_dominio_youtube url

/-- `linea.startswith('#')`. -/
def empieza_con_hash (linea : String) : Bool := listBegins linea.toList ['#']

/-- `linea.startswith('http')`. -/
def empieza_con_http (linea : String) : Bool := listBegins linea.toList "http".toList

/-- `linea.lstrip('# ').strip()`: the module name carried by a header line. -/
def nombre_de_linea (linea : String) : String :=
  pyStrip ⟨lstripHashSpaceChars linea.toList⟩

/-- Python dict assignment `m[k] = v`: replace in place when the key exists,
append at the end otherwise (insertion order is preserved). -/
def dictSet (m : List (String × List String)) (k : String) (v : List String) :
    List (String × List String) :=
  if m.any (fun p => p.1 = k) then m.map (fun p => if p.1 = k then (k, v) else p)
  else m ++ [(k, v)]

/-- Python `m[k].append(url)` on the module dictionary. -/
def dictAppendUrl (m : List (String × List String)) (k : String) (url : String) :
    List (String × List String) :=
  m.map (fun p => if p.1 = k then (p.1, p.2 ++ [url]) else p)

/-- The scanner state of `URLProcessor.parsear_archivo_urls`: the modules
read so far and Python's `modulo_actual` (the falsy values `None` and the
empty string are both represented by `""`, exactly as the code only ever
tests truthiness). -/
structure PState where
  modulos : List (String × List String)
  actual : String

/-- One iteration of the line loop of `URLProcessor.parsear_archivo_urls`. -/
def procesar_linea (st : PState) (raw : String) : PState :=
  if pyStrip raw = "" then st
  else if empieza_con_hash (pyStrip raw) then
    (if nombre_de_linea (pyStrip raw) = "" then { st with actual := "" }
     else { modulos := dictSet st.modulos (nombre_de_linea (pyStrip raw)) [],
            actual := nombre_de_linea (pyStrip raw) })
  else if st.actual = "" then st
  else if empieza_con_http (pyStrip raw) then
    (if validar_url_youtube (pyStrip raw) then
       { st with modulos := dictAppendUrl st.modulos st.actual (pyStrip raw) }
     else st)
  else st

/-- `URLProcessor.parsear_archivo_urls`: `none` stands for a missing file and
for the no-module-found error return. -/
def parsear_archivo_urls (contenido : Option (List String)) :
    Option (List (String × List String)) :=
  match contenido with
  | none => none
  | some lineas =>
    if (lineas.foldl procesar_linea ⟨[], ""⟩).modulos = [] then none
    else some (lineas.foldl procesar_linea ⟨[], ""⟩).modulos

/-- Scanner state as the claim describes it, with an explicit optional
current module. -/
structure CState where
  modulos : List (String × List String)
  actual : Option String

/-- One line of the URL file exactly as the claim words it: a line starting
with `#` that is non-empty after stripping `#` and spaces starts a module; a
line starting with `http` under a current module is appended exactly when it
contains a YouTube domain; blank lines and other lines — including a `#`
line whose name strips to empty — are ignored. -/
def linea_segun_claim (st : CState) (raw : String) : CState :=
  if pyStrip raw = "" then st
  else if empieza_con_hash (pyStrip raw) then
    (if nombre_de_linea (pyStrip raw) = "" then st
     else { modulos := dictSet st.modulos (nombre_de_linea (pyStrip raw)) [],
            actual := some (nombre_de_linea (pyStrip raw)) })
  else
    match st.actual with
    | some m =>
      if empieza_con_http (pyStrip raw) && url_tiene_dominio_youtube (pyStrip raw) then
        { st with modulos := dictAppendUrl st.modulos m (pyStrip raw) }
      else st
    | none => st

/-- The claim's scanner over a whole file. -/
def parsear_segun_claim (contenido : Option (List String)) :
    Option (List (String × List String)) :=
  match contenido with
  | none => none
  | some lineas =>
    if (lineas.foldl linea_segun_claim ⟨[], none⟩).modulos = [] then none
    else some (lineas.foldl linea_segun_claim ⟨[], none⟩).modulos

/-- One line as the amended claim words it: like `linea_segun_claim`, except
that a `#` line whose name strips to empty clears the current module, so
following URL lines are ignored until the next module header. -/
def linea_claim_amended (st : CState) (raw : String) : CState :=
  if pyStrip raw = "" then st
  else if empieza_con_hash (pyStrip raw) then
    (if nombre_de_linea (pyStrip raw) = "" then { st with actual := none }
     else { modulos := dictSet st.modulos (nombre_de_linea (pyStrip raw)) [],
            actual := some (nombre_de_linea (pyStrip raw)) })
  else
    match st.actual with
    | some m =>
      if empieza_con_http (pyStrip raw) && url_tiene_dominio_youtube (pyStrip raw) then
        { st with modulos := dictAppendUrl st.modulos m (pyStrip raw) }
      else st
    | none => st

/-- The amended claim's scanner over a whole file. -/
def parsear_claim_amended (contenido : Option (List String)) :
    Option (List (String × List String)) :=
  match contenido with
  | none => none
  | some lineas =>
    if (lineas.foldl linea_claim_amended ⟨[], none⟩).modulos = [] then none
    else some (lineas.foldl linea_claim_amended ⟨[], none⟩).modulos

/- ===== config.py ===== -/

/-- The configuration switches that matter for the verified behaviour. -/
structure Config where
  modoPrueba : Bool
  duracionMaximaPrueba : Option Nat

/-- The values shipped in `config.py`: `MODO_PRUEBA = False`,
`DURACION_MAXIMA_PRUEBA = None`. -/
def configPy : Config := ⟨false, none⟩

/- ===== file_manager.py ===== -/

/-- A filesystem path as its list of components; the last component is the
file name, `ruta_modulo / nombre` is list append. -/
abbrev PyPath := List String

/-- `pathlib.PurePath.name`: the final path component. -/
def pathName (p : PyPath) : String := (p.getLast?).getD ""

/-- Scan of the reversed file name: the characters found before the first
dot of the reversed name (that is, after the last dot of the name), still
reversed; `none` when there is no dot or the only dot starts the name. -/
def sufAux : List Char → Option (List Char)
  | [] => none
  | c :: rest =>
    if c = '.' then (if rest = [] then none else some [])
    else (sufAux rest).map (fun l => c :: l)

/-- `pathlib.PurePath.suffix`: the extension of the final component
including the dot; empty when the last dot is the first or last character
of the name. -/
def pySuffix (p : PyPath) : String :=
  match sufAux (pathName p).toList.reverse with
  | some (c :: rest) => ⟨'.' :: (c :: rest).reverse⟩
  | _ => ""

/-- Python `f"{numero_video:02d}"`: zero-pad to two digits. -/
def format02d (n : Nat) : String :=
  if n < 10 then "0" ++ toString n else toString n

/-- `FileManager._generar_ruta_archivo`: module folder, two-digit number,
sanitized title, `_PRUEBA` suffix in test mode, original extension. -/
def generar_ruta_archivo (cfg : Config) (ruta_original ruta_modulo : PyPath)
    (titulo_video : String) (numero_video : Nat) : PyPath :=
  ruta_modulo ++ [format02d numero_video ++ "_" ++ sanitizar_nombre_archivo titulo_video
    ++ (if cfg.modoPrueba then "_PRUEBA" else "") ++ pySuffix ruta_original]

/-- The shared statistics dictionary created in `Orchestrator.__init__`. -/
structure Stats where
  videos_grabados : Nat
  duracion_total_segundos : Nat
  tamano_total_bytes : Nat
  archivos_grabados : List PyPath
deriving DecidableEq

/-- `Orchestrator.__init__`: all counters start at zero. -/
def estadisticas_iniciales : Stats := ⟨0, 0, 0, []⟩

/-- Externally visible filesystem actions of `FileManager`. -/
inductive FEv where
  | sleep (segundos : Nat)
  | check (t : Nat)
  | unlink (p : PyPath)
  | renameOp (src tgt : PyPath)
deriving DecidableEq

/-- Responses of the operating system during one
`gestionar_archivo_grabado` call: whether the recorded file exists at a
given time, whether the target name already exists, whether the rename
call raises, whether the renamed file is seen afterwards, and its size. -/
structure FSOracle where
  existsAt : Nat → Bool
  nuevaExists : Bool
  renameOk : Bool
  existsAfterRename : Bool
  fileSize : Nat

/-- The retry loop of `FileManager._esperar_archivo`
(`for espera in range(5): sleep 2; check`), entered at time `t`. -/
def esperarLoop (ex : Nat → Bool) : Nat → Nat → Bool × Nat × List FEv
  | 0, t => (false, t, [])
  | fuel + 1, t =>
    if ex (t + 2) then (true, t + 2, [FEv.sleep 2, FEv.check (t + 2)])
    else
      ((esperarLoop ex fuel (t + 2)).1, (esperarLoop ex fuel (t + 2)).2.1,
        FEv.sleep 2 :: FEv.check (t + 2) :: (esperarLoop ex fuel (t + 2)).2.2)

/-- `FileManager._esperar_archivo` with its default `max_intentos = 5`:
check at once, then at most five more checks two seconds apart. -/
def esperar_archivo (ex : Nat → Bool) (t : Nat) : Bool × Nat × List FEv :=
  if ex t then (true, t, [FEv.check t])
  else
    ((esperarLoop ex 5 t).1, (esperarLoop ex 5 t).2.1,
      FEv.check t :: (esperarLoop ex 5 t).2.2)

/-- The statistics update inside `FileManager._renombrar_archivo`. -/
def actualizar_estadisticas (st : Stats) (duracion_segundos tamano_archivo : Nat)
    (nueva_ruta : PyPath) : Stats :=
  ⟨st.videos_grabados + 1, st.duracion_total_segundos + duracion_segundos,
    st.tamano_total_bytes + tamano_archivo, st.archivos_grabados ++ [nueva_ruta]⟩

/-- `FileManager._renombrar_archivo`: attempt the rename; on success with
the target verified to exist, update the four statistics fields together
and return True; if the rename raises or the target is missing afterwards,
return False with the statistics untouched. -/
def renombrar_archivo (o : FSOracle) (ruta_original nueva_ruta : PyPath)
    (duracion_segundos : Nat) (st : Stats) : Bool × Stats × List FEv :=
  if o.renameOk then
    if o.existsAfterRename then
      (true, actualizar_estadisticas st duracion_segundos o.fileSize nueva_ruta,
        [FEv.renameOp ruta_original nueva_ruta])
    else (false, st, [FEv.renameOp ruta_original nueva_ruta])
  else (false, st, [FEv.renameOp ruta_original nueva_ruta])

/-- `FileManager.gestionar_archivo_grabado`, entered at time `t`: the
initial two-second pause for OBS to release the file, the wait loop, the
optional deletion of an existing target, then the rename. -/
def gestionar_archivo_grabado (o : FSOracle) (cfg : Config) (t : Nat)
    (ruta_original ruta_modulo : PyPath) (titulo_video : String)
    (numero_video duracion_segundos : Nat) (st : Stats) :
    Bool × Stats × List FEv :=
  let r := esperar_archivo o.existsAt (t + 2)
  if r.1 then
    let nueva := generar_ruta_archivo cfg ruta_original ruta_modulo titulo_video numero_video
    let rr := renombrar_archivo o ruta_original nueva duracion_segundos st
    (rr.1, rr.2.1,
      (FEv.sleep 2 :: r.2.2) ++ (if o.nuevaExists then [FEv.unlink nueva] else []) ++ rr.2.2)
  else (false, st, FEv.sleep 2 :: r.2.2)

/-- The statistics write of `Orchestrator._mostrar_resumen_final`: the byte
total is replaced by the directory scan total when that is larger. -/
def resumen_actualizar_tamano (tamano_calculado : Nat) (st : Stats) : Stats :=
  if st.tamano_total_bytes < tamano_calculado then
    { st with tamano_total_bytes := tamano_calculado }
  else st

/-- The times of the existence checks recorded in a trace. -/
def tiemposCheck (tr : List FEv) : List Nat :=
  tr.filterMap (fun e => match e with | FEv.check u => some u | _ => none)

/-- Whether an action is a rename attempt. -/
def esRename : FEv → Bool
  | FEv.renameOp _ _ => true
  | _ => false

/- ===== video_processor.py ===== -/

/-- Outcome of one helper step as seen by `VideoProcessor.procesar_video`:
the step succeeded, the step reported failure (a falsy return), or the
step raised an exception. -/
inductive Outcome where
  | ok
  | err
  | raise
deriving DecidableEq

/-- The steps of `VideoProcessor.procesar_video`, in the order the claim
lists them (the entry into the numbered PASO helpers, plus the stop /
rename halves of `_finalizar_grabacion` and the final cleanup). -/
inductive Paso where
  | configDir
  | startRec
  | waitIni
  | loadUrl
  | play
  | fullscreen
  | fetchInfo
  | monitor
  | waitFin
  | stopRec
  | renameFile
  | cleanup
deriving DecidableEq

/-- Externally visible events of one `procesar_video` call: step attempts
and the OBS recording control effects (a successful `iniciar_grabacion`, a
call to `detener_grabacion` or `asegurar_grabacion_detenida`). -/
inductive VEv where
  | paso (s : Paso)
  | obsStart
  | obsStop
deriving DecidableEq

/-- Responses of OBS, the browser and the file manager during one
`procesar_video` call. `titulo = ""` models the falsy values returned when
no title is obtained, `duracion = 0` an unobtained duration, `rutaGrabada`
the return of `detener_grabacion`. -/
structure VOracle where
  configurarDir : Outcome
  iniciarGrab : Outcome
  margenIni : Outcome
  cargarUrl : Outcome
  reproducir : Outcome
  pantallaCompleta : Outcome
  obtenerInfo : Outcome
  titulo : String
  duracion : Nat
  monitorear : Outcome
  margenFin : Outcome
  rutaGrabada : Option String
  gestionarArchivo : Outcome
  limpiar : Outcome

/-- `VideoProcessor._obtener_informacion_video`: fall back to
`"video_sin_titulo"` and 60 seconds, then cap in test mode when
`DURACION_MAXIMA_PRUEBA` is truthy. -/
def obtener_informacion_video (cfg : Config) (o : VOracle) : String × Nat :=
  let titulo := if o.titulo = "" then "video_sin_titulo" else o.titulo
  let dur0 := if o.duracion = 0 then 60 else o.duracion
  let dur :=
    match cfg.duracionMaximaPrueba with
    | some m => if cfg.modoPrueba && !(m = 0) then min dur0 m else dur0
    | none => dur0
  (titulo, dur)

/-- `VideoProcessor.procesar_video`: the sequential control flow over the
step outcomes, producing the success flag and the trace of events.  Each
fatal step is guarded exactly like the Python `if not step(): return
False` tests, a `raise` anywhere is caught by the outer handlers, which
call `asegurar_grabacion_detenida` and return False; a failed
`_cargar_url` calls `detener_grabacion` explicitly; `_finalizar_grabacion`
always calls `detener_grabacion` and only reaches the file manager when
it returned a path. -/
def procesar_video (o : VOracle) : Bool × List VEv :=
  let t0 := [VEv.paso Paso.configDir]
  if o.configurarDir = Outcome.raise then (false, t0 ++ [VEv.obsStop])
  else if o.configurarDir = Outcome.err then (false, t0)
  else
    let t1 := t0 ++ [VEv.paso Paso.startRec]
    if o.iniciarGrab = Outcome.raise then (false, t1 ++ [VEv.obsStop])
    else if o.iniciarGrab = Outcome.err then (false, t1)
    else
      let t2 := t1 ++ [VEv.obsStart, VEv.paso Paso.waitIni]
      if o.margenIni = Outcome.raise then (false, t2 ++ [VEv.obsStop])
      else
        let t3 := t2 ++ [VEv.paso Paso.loadUrl]
        if o.cargarUrl = Outcome.raise then (false, t3 ++ [VEv.obsStop])
        else if o.cargarUrl = Outcome.err then (false, t3 ++ [VEv.obsStop])
        else
          let t4 := t3 ++ [VEv.paso Paso.play]
          if o.reproducir = Outcome.raise then (false, t4 ++ [VEv.obsStop])
          else
            let t5 := t4 ++ [VEv.paso Paso.fullscreen]
            if o.pantallaCompleta = Outcome.raise then (false, t5 ++ [VEv.obsStop])
            else
              let t6 := t5 ++ [VEv.paso Paso.fetchInfo]
              if o.obtenerInfo = Outcome.raise then (false, t6 ++ [VEv.obsStop])
              else
                let t7 := t6 ++ [VEv.paso Paso.monitor]
                if o.monitorear = Outcome.raise then (false, t7 ++ [VEv.obsStop])
                else
                  let t8 := t7 ++ [VEv.paso Paso.waitFin]
                  if o.margenFin = Outcome.raise then (false, t8 ++ [VEv.obsStop])
                  else
                    let t9 := t8 ++ [VEv.paso Paso.stopRec, VEv.obsStop]
                    if o.rutaGrabada = none then (false, t9)
                    else
                      let t10 := t9 ++ [VEv.paso Paso.renameFile]
                      if o.gestionarArchivo = Outcome.raise then (false, t10 ++ [VEv.obsStop])
                      else if o.gestionarArchivo = Outcome.err then (false, t10)
                      else
                        let t11 := t10 ++ [VEv.paso Paso.cleanup, VEv.obsStop]
                        if o.limpiar = Outcome.raise then (false, t11 ++ [VEv.obsStop])
                        else (true, t11)

/-- The order of the steps as the claim lists them. -/
def canonicalPasos : List Paso :=
  [Paso.configDir, Paso.startRec, Paso.waitIni, Paso.loadUrl, Paso.play,
   Paso.fullscreen, Paso.fetchInfo, Paso.monitor, Paso.waitFin, Paso.stopRec,
   Paso.renameFile, Paso.cleanup]

/-- The step attempts recorded in a trace, in order. -/
def pasosDe (tr : List VEv) : List Paso :=
  tr.filterMap (fun e => match e with | VEv.paso s => some s | _ => none)

/-- Replay of the recording state over a trace: a successful start
activates it, a stop call ends it. -/
def replayActivo (tr : List VEv) : Bool :=
  tr.foldl (fun a e =>
    match e with
    | VEv.obsStart => true
    | VEv.obsStop => false
    | _ => a) false

/- ===== Theorems: C9 ===== -/

theorem collapseSeps_mem (l : List Char) : ∀ (b : Bool) (c : Char),
    c ∈ collapseSeps b l → c = '_' ∨ isSepChar c = false := by
  induction l with
  | nil => intro b c h; simp [collapseSeps] at h
  | cons d rest ih =>
    intro b c h
    cases hd : isSepChar d with
    | true =>
      cases b with
      | true =>
        simp only [collapseSeps, hd, if_true] at h
        exact ih true c h
      | false =>
        simp only [collapseSeps, hd, if_true] at h
        rcases List.mem_cons.mp h with h1 | h2
        · exact Or.inl h1
        · exact ih true c h2
    | false =>
      simp only [collapseSeps, hd, Bool.false_eq_true, if_false] at h
      rcases List.mem_cons.mp h with h1 | h2
      · subst h1; exact Or.inr hd
      · exact ih false c h2

/-- C9: for every input string, the result of `sanitizar_nombre_archivo` is at
most 150 characters long and contains no whitespace character and none of the
characters `:`, `|`, `\`, `/`, `*`, `?`, `"`, `<`, `>`. -/
theorem C9_sanitizar_resultado_valido (s : String) :
    (sanitizar_nombre_archivo s).toList.length ≤ 150 ∧
    ∀ c ∈ (sanitizar_nombre_archivo s).toList,
      isPySpace c = false ∧ c ≠ ':' ∧ c ≠ '|' ∧ c ≠ '\\' ∧ c ≠ '/' ∧
      c ≠ '*' ∧ c ≠ '?' ∧ c ≠ '"' ∧ c ≠ '<' ∧ c ≠ '>' := by
  constructor
  · show (((collapseSeps false s.toList).filter
        (fun c => !forbiddenChar c)).take 150).length ≤ 150
    rw [List.length_take]
    exact min_le_left _ _
  · intro c hc
    have hc' : c ∈ (collapseSeps false s.toList).filter (fun c => !forbiddenChar c) :=
      List.mem_of_mem_take hc
    have hmem := (List.mem_filter.mp hc').1
    have hforb : forbiddenChar c = false := by
      have h2 := (List.mem_filter.mp hc').2
      simpa using h2
    rcases collapseSeps_mem s.toList false c hmem with h_ | hsep
    · subst h_; decide
    · simp only [isSepChar, Bool.or_eq_false_iff] at hsep
      obtain ⟨⟨hsp, hbar⟩, hcolon⟩ := hsep
      simp only [forbiddenChar, Bool.or_eq_false_iff] at hforb
      obtain ⟨⟨⟨⟨⟨⟨⟨h1, h2⟩, h3⟩, h4⟩, h5⟩, h6⟩, h7⟩, h8⟩ := hforb
      exact ⟨hsp, of_decide_eq_false hcolon, of_decide_eq_false hbar,
        of_decide_eq_false h1, of_decide_eq_false h2, of_decide_eq_false h3,
        of_decide_eq_false h4, of_decide_eq_false h5, of_decide_eq_false h6,
        of_decide_eq_false h7⟩

/-- Witness for C9 at a concrete input. -/
theorem C9_sanitizar_witness :
    (sanitizar_nombre_archivo "a b:c/d").toList.length ≤ 150 ∧
    ∀ c ∈ (sanitizar_nombre_archivo "a b:c/d").toList,
      isPySpace c = false ∧ c ≠ ':' ∧ c ≠ '|' ∧ c ≠ '\\' ∧ c ≠ '/' ∧
      c ≠ '*' ∧ c ≠ '?' ∧ c ≠ '"' ∧ c ≠ '<' ∧ c ≠ '>' :=
  C9_sanitizar_resultado_valido "a b:c/d"

/- ===== Theorems: C8 ===== -/

/-- C8 counterexample: on the input "1: :5" the code discards the middle
piece because it is blank after stripping and returns 65, while the claim as
stated discards only literally empty pieces, so the blank piece remains as a
non-numeric segment and the claimed result is 0. -/
theorem C8_duracion_counterexample :
    parsear_duracion_a_segundos "1: :5" = 65 ∧
    parsear_duracion_segun_claim "1: :5" = 0 ∧
    parsear_duracion_a_segundos "1: :5" ≠ parsear_duracion_segun_claim "1: :5" := by
  decide

/-- C8 (amended): `parsear_duracion_a_segundos` splits on `:` and discards
blank segments (empty or whitespace-only); with three numeric segments H, M,
S it returns 3600*H + 60*M + S, with two it returns 60*M + S, with one it
returns that number, and with zero or more than three segments, a
non-numeric segment, or an empty/whitespace input it returns 0. -/
theorem C8_duracion_caracterizacion (s : String) :
    (∀ a b c : Int, duracionPartes s = some [a, b, c] →
        parsear_duracion_a_segundos s = 3600 * a + 60 * b + c) ∧
    (∀ a b : Int, duracionPartes s = some [a, b] →
        parsear_duracion_a_segundos s = 60 * a + b) ∧
    (∀ a : Int, duracionPartes s = some [a] → parsear_duracion_a_segundos s = a) ∧
    (duracionPartes s = none → parsear_duracion_a_segundos s = 0) ∧
    (∀ l : List Int, duracionPartes s = some l → l.length ≠ 1 → l.length ≠ 2 →
        l.length ≠ 3 → parsear_duracion_a_segundos s = 0) := by
  by_cases hs : pyStrip s = ""
  · have h0 : (pyStrip s).toList = [] := by rw [hs]; rfl
    have hd : duracionPartes s = some [] := by
      unfold duracionPartes
      rw [h0]
      decide
    have hp : parsear_duracion_a_segundos s = 0 := by
      unfold parsear_duracion_a_segundos
      rw [if_pos hs]
    refine ⟨?_, ?_, ?_, ?_, ?_⟩
    · intro a b c h; rw [hd] at h; exact absurd h (by simp)
    · intro a b h; rw [hd] at h; exact absurd h (by simp)
    · intro a h; rw [hd] at h; exact absurd h (by simp)
    · intro h; rw [hd] at h; exact absurd h (by simp)
    · intro l h h1 h2 h3; exact hp
  · have hp : parsear_duracion_a_segundos s =
        (match duracionPartes s with
          | none => 0
          | some [h, m, sec] => h * 3600 + m * 60 + sec
          | some [m, sec] => m * 60 + sec
          | some [x] => x
          | some _ => 0) := by
      unfold parsear_duracion_a_segundos
      rw [if_neg hs]
    cases hd : duracionPartes s with
    | none =>
      rw [hd] at hp
      refine ⟨?_, ?_, ?_, ?_, ?_⟩
      · intro a b c h; exact absurd h (by simp)
      · intro a b h; exact absurd h (by simp)
      · intro a h; exact absurd h (by simp)
      · intro _; exact hp
      · intro l h h1 h2 h3; exact absurd h (by simp)
    | some l =>
      rw [hd] at hp
      rcases l with _ | ⟨a, _ | ⟨b, _ | ⟨c, _ | ⟨d, rest⟩⟩⟩⟩
      · refine ⟨?_, ?_, ?_, ?_, ?_⟩
        · intro a' b' c' h; exact absurd h (by simp)
        · intro a' b' h; exact absurd h (by simp)
        · intro a' h; exact absurd h (by simp)
        · intro h; exact absurd h (by simp)
        · intro l' h h1 h2 h3; exact hp
      · refine ⟨?_, ?_, ?_, ?_, ?_⟩
        · intro a' b' c' h; exact absurd h (by simp)
        · intro a' b' h; exact absurd h (by simp)
        · intro a' h
          have ha : a = a' := by simpa using h
          subst ha; exact hp
        · intro h; exact absurd h (by simp)
        · intro l' h h1 h2 h3
          have : l' = [a] := by simpa using h.symm
          subst this; simp at h1
      · refine ⟨?_, ?_, ?_, ?_, ?_⟩
        · intro a' b' c' h; exact absurd h (by simp)
        · intro a' b' h
          obtain ⟨ha, hb⟩ : a = a' ∧ b = b' := by simpa using h
          subst ha; subst hb
          rw [hp]
          show a * 60 + b = 60 * a + b
          ring
        · intro a' h; exact absurd h (by simp)
        · intro h; exact absurd h (by simp)
        · intro l' h h1 h2 h3
          have : l' = [a, b] := by simpa using h.symm
          subst this; simp at h2
      · refine ⟨?_, ?_, ?_, ?_, ?_⟩
        · intro a' b' c' h
          obtain ⟨ha, hb, hc⟩ : a = a' ∧ b = b' ∧ c = c' := by simpa using h
          subst ha; subst hb; subst hc
          rw [hp]
          show a * 3600 + b * 60 + c = 3600 * a + 60 * b + c
          ring
        · intro a' b' h; exact absurd h (by simp)
        · intro a' h; exact absurd h (by simp)
        · intro h; exact absurd h (by simp)
        · intro l' h h1 h2 h3
          have : l' = [a, b, c] := by simpa using h.symm
          subst this; simp at h3
      · refine ⟨?_, ?_, ?_, ?_, ?_⟩
        · intro a' b' c' h; exact absurd h (by simp)
        · intro a' b' h; exact absurd h (by simp)
        · intro a' h; exact absurd h (by simp)
        · intro h; exact absurd h (by simp)
        · intro l' h h1 h2 h3; exact hp

/-- Witness for C8's amended characterization at a concrete input. -/
theorem C8_duracion_witness :
    parsear_duracion_a_segundos "1:05:30" = 3600 * 1 + 60 * 5 + 30 :=
  (C8_duracion_caracterizacion "1:05:30").1 1 5 30 (by decide)

/- ===== Theorems: C2 ===== -/

/-- C2 counterexample: in the file `#A`, `#`, youtube-url the bare `#` line
is not ignored by the code — it clears the current module (Python assigns
the stripped empty name to `modulo_actual` before testing it), so the
following valid URL is dropped; the claim as stated treats the bare `#`
line as ignored and keeps the URL under module A. -/
theorem C2_parsear_counterexample :
    parsear_archivo_urls (some ["#A", "#", "https://www.youtube.com/watch?v=abc"]) =
      some [("A", [])] ∧
    parsear_segun_claim (some ["#A", "#", "https://www.youtube.com/watch?v=abc"]) =
      some [("A", ["https://www.youtube.com/watch?v=abc"])] ∧
    parsear_archivo_urls (some ["#A", "#", "https://www.youtube.com/watch?v=abc"]) ≠
      parsear_segun_claim (some ["#A", "#", "https://www.youtube.com/watch?v=abc"]) := by
  decide

/-- The coupling between the code scanner state and the claim's state: same
modules, and the claim's optional current module is the code's
`modulo_actual` with the falsy empty string read as `None`. -/
def estadoRel (st : PState) (ast : CState) : Prop :=
  st.modulos = ast.modulos ∧
  ast.actual = (if st.actual = "" then none else some st.actual)

theorem linea_rel (raw : String) (st : PState) (ast : CState)
    (h : estadoRel st ast) :
    estadoRel (procesar_linea st raw) (linea_claim_amended ast raw) := by
  obtain ⟨hm, ha⟩ := h
  unfold procesar_linea linea_claim_amended
  by_cases h0 : pyStrip raw = ""
  · rw [if_pos h0, if_pos h0]; exact ⟨hm, ha⟩
  · rw [if_neg h0, if_neg h0]
    by_cases h1 : empieza_con_hash (pyStrip raw) = true
    · rw [if_pos h1, if_pos h1]
      by_cases h2 : nombre_de_linea (pyStrip raw) = ""
      · rw [if_pos h2, if_pos h2]
        exact ⟨hm, by simp⟩
      · rw [if_neg h2, if_neg h2]
        exact ⟨by rw [hm], by simp [h2]⟩
    · rw [if_neg h1, if_neg h1]
      by_cases hA : st.actual = ""
      · have ha' : ast.actual = none := by rw [ha, if_pos hA]
        rw [if_pos hA, ha']
        exact ⟨hm, ha⟩
      · have ha' : ast.actual = some st.actual := by rw [ha, if_neg hA]
        rw [if_neg hA, ha']
        show estadoRel
          (if empieza_con_http (pyStrip raw) = true then
            (if validar_url_youtube (pyStrip raw) = true then
              { st with modulos := dictAppendUrl st.modulos st.actual (pyStrip raw) }
             else st)
           else st)
          (if (empieza_con_http (pyStrip raw) && url_tiene_dominio_youtube (pyStrip raw)) = true then
            { modulos := dictAppendUrl ast.modulos st.actual (pyStrip raw),
              actual := some st.actual }
           else ast)
        have hv : validar_url_youtube (pyStrip raw) = url_tiene_dominio_youtube (pyStrip raw) := by
          unfold validar_url_youtube
          rw [if_neg h0]
        by_cases hh : empieza_con_http (pyStrip raw) = true
        · rw [if_pos hh]
          by_cases hdom : url_tiene_dominio_youtube (pyStrip raw) = true
          · have hcond : (empieza_con_http (pyStrip raw) &&
                url_tiene_dominio_youtube (pyStrip raw)) = true := by
              rw [hh, hdom]; rfl
            rw [hv, if_pos hdom, if_pos hcond]
            exact ⟨by rw [hm], by rw [if_neg hA]⟩
          · have hdom' : url_tiene_dominio_youtube (pyStrip raw) = false :=
              Bool.eq_false_iff.mpr hdom
            have hcf : (empieza_con_http (pyStrip raw) &&
                url_tiene_dominio_youtube (pyStrip raw)) = false := by
              rw [hdom']; simp
            rw [hv, if_neg hdom, if_neg (show ¬((empieza_con_http (pyStrip raw) &&
                url_tiene_dominio_youtube (pyStrip raw)) = true) by simp [hcf])]
            exact ⟨hm, ha⟩
        · have hh' : empieza_con_http (pyStrip raw) = false := Bool.eq_false_iff.mpr hh
          have hcf : (empieza_con_http (pyStrip raw) &&
              url_tiene_dominio_youtube (pyStrip raw)) = false := by
            rw [hh']; simp
          rw [if_neg hh, if_neg (show ¬((empieza_con_http (pyStrip raw) &&
              url_tiene_dominio_youtube (pyStrip raw)) = true) by simp [hcf])]
          exact ⟨hm, ha⟩

theorem fold_rel (lineas : List String) : ∀ (st : PState) (ast : CState),
    estadoRel st ast →
    estadoRel (lineas.foldl procesar_linea st) (lineas.foldl linea_claim_amended ast) := by
  induction lineas with
  | nil => intro st ast h; exact h
  | cons l rest ih =>
    intro st ast h
    exact ih _ _ (linea_rel l st ast h)

/-- C2 (amended): `parsear_archivo_urls` behaves exactly as the claim says —
module name to URL list in file order, a non-empty `#` header starts a
module, an `http` line under the current module is appended exactly when it
contains a YouTube domain case-insensitively, blank and other lines are
ignored, `none` for a missing file or when no module header was found —
with the one amendment that a `#` line whose name strips to empty clears
the current module, so following URL lines are ignored until the next
header. -/
theorem C2_parsear_equiv (contenido : Option (List String)) :
    parsear_archivo_urls contenido = parsear_claim_amended contenido := by
  cases contenido with
  | none => rfl
  | some lineas =>
    have h := fold_rel lineas ⟨[], ""⟩ ⟨[], none⟩ ⟨rfl, by simp⟩
    obtain ⟨hm, _⟩ := h
    show (if (List.foldl procesar_linea ⟨[], ""⟩ lineas).modulos = [] then none
          else some (List.foldl procesar_linea ⟨[], ""⟩ lineas).modulos) =
         (if (List.foldl linea_claim_amended ⟨[], none⟩ lineas).modulos = [] then none
          else some (List.foldl linea_claim_amended ⟨[], none⟩ lineas).modulos)
    rw [hm]

/- ===== Theorems: esperar_archivo helper lemmas ===== -/

theorem esperarLoop_mem (ex : Nat → Bool) :
    ∀ (fuel t : Nat) (e : FEv), e ∈ (esperarLoop ex fuel t).2.2 →
      e = FEv.sleep 2 ∨ ∃ u, e = FEv.check u := by
  intro fuel
  induction fuel with
  | zero => intro t e h; simp [esperarLoop] at h
  | succ n ih =>
    intro t e h
    simp only [esperarLoop] at h
    by_cases hx : ex (t + 2) = true
    · rw [if_pos hx] at h
      simp only [List.mem_cons, List.not_mem_nil, or_false] at h
      rcases h with h | h
      · exact Or.inl h
      · exact Or.inr ⟨t + 2, h⟩
    · rw [if_neg hx] at h
      simp only [List.mem_cons] at h
      rcases h with h | h | h
      · exact Or.inl h
      · exact Or.inr ⟨t + 2, h⟩
      · exact ih (t + 2) e h

theorem esperarLoop_tiempos (ex : Nat → Bool) :
    ∀ (fuel t : Nat),
      List.Chain' (fun a b => b = a + 2) (tiemposCheck (esperarLoop ex fuel t).2.2) ∧
      (tiemposCheck (esperarLoop ex fuel t).2.2).head? =
        (if fuel = 0 then none else some (t + 2)) ∧
      (tiemposCheck (esperarLoop ex fuel t).2.2).length ≤ fuel := by
  intro fuel
  induction fuel with
  | zero => intro t; simp [esperarLoop, tiemposCheck]
  | succ n ih =>
    intro t
    simp only [esperarLoop]
    by_cases hx : ex (t + 2) = true
    · rw [if_pos hx]
      refine ⟨?_, ?_, ?_⟩ <;> simp [tiemposCheck]
    · rw [if_neg hx]
      obtain ⟨ihc, ihh, ihl⟩ := ih (t + 2)
      have htl : tiemposCheck (((esperarLoop ex n (t + 2)).1, (esperarLoop ex n (t + 2)).2.1,
          FEv.sleep 2 :: FEv.check (t + 2) :: (esperarLoop ex n (t + 2)).2.2) :
            Bool × Nat × List FEv).2.2 =
          (t + 2) :: tiemposCheck (esperarLoop ex n (t + 2)).2.2 := by
        simp [tiemposCheck]
      rw [htl]
      refine ⟨?_, ?_, ?_⟩
      · rw [List.chain'_cons']
        refine ⟨?_, ihc⟩
        intro b hb
        rw [ihh] at hb
        by_cases hn : n = 0
        · rw [if_pos hn] at hb; simp at hb
        · rw [if_neg hn] at hb
          simp at hb
          omega
      · simp
      · simp only [List.length_cons]
        omega

theorem esperarLoop_not_found (ex : Nat → Bool) :
    ∀ (fuel t : Nat), (∀ i, i < fuel → ex (t + 2 + 2 * i) = false) →
      (esperarLoop ex fuel t).1 = false := by
  intro fuel
  induction fuel with
  | zero => intro t _; simp [esperarLoop]
  | succ n ih =>
    intro t h
    have h0 : ex (t + 2) = false := by
      have := h 0 (Nat.succ_pos n)
      simpa using this
    simp only [esperarLoop]
    rw [if_neg (by simp [h0])]
    show (esperarLoop ex n (t + 2)).1 = false
    apply ih
    intro i hi
    have hh := h (i + 1) (by omega)
    have harith : t + 2 + 2 * (i + 1) = t + 2 + 2 + 2 * i := by ring
    rw [harith] at hh
    exact hh

theorem esperar_mem (ex : Nat → Bool) (t : Nat) (e : FEv)
    (h : e ∈ (esperar_archivo ex t).2.2) :
    e = FEv.sleep 2 ∨ ∃ u, e = FEv.check u := by
  unfold esperar_archivo at h
  by_cases hx : ex t = true
  · rw [if_pos hx] at h
    simp only [List.mem_cons, List.not_mem_nil, or_false] at h
    exact Or.inr ⟨t, h⟩
  · rw [if_neg hx] at h
    simp only [List.mem_cons] at h
    rcases h with h | h
    · exact Or.inr ⟨t, h⟩
    · exact esperarLoop_mem ex 5 t e h

theorem esperar_tiempos (ex : Nat → Bool) (t : Nat) :
    List.Chain' (fun a b => b = a + 2) (tiemposCheck (esperar_archivo ex t).2.2) ∧
    (tiemposCheck (esperar_archivo ex t).2.2).head? = some t ∧
    (tiemposCheck (esperar_archivo ex t).2.2).length ≤ 6 := by
  unfold esperar_archivo
  by_cases hx : ex t = true
  · rw [if_pos hx]
    refine ⟨?_, ?_, ?_⟩ <;> simp [tiemposCheck]
  · rw [if_neg hx]
    obtain ⟨ihc, ihh, ihl⟩ := esperarLoop_tiempos ex 5 t
    have htl : tiemposCheck (((esperarLoop ex 5 t).1, (esperarLoop ex 5 t).2.1,
        FEv.check t :: (esperarLoop ex 5 t).2.2) : Bool × Nat × List FEv).2.2 =
        t :: tiemposCheck (esperarLoop ex 5 t).2.2 := by
      simp [tiemposCheck]
    rw [htl]
    refine ⟨?_, by simp, ?_⟩
    · rw [List.chain'_cons']
      refine ⟨?_, ihc⟩
      intro b hb
      rw [ihh] at hb
      simp at hb
      omega
    · simp only [List.length_cons]
      omega

theorem esperar_not_found (ex : Nat → Bool) (t : Nat)
    (h : ∀ i, i < 6 → ex (t + 2 * i) = false) : (esperar_archivo ex t).1 = false := by
  unfold esperar_archivo
  have hx : ex t = false := by
    have := h 0 (by omega)
    simpa using this
  rw [if_neg (by simp [hx])]
  show (esperarLoop ex 5 t).1 = false
  apply esperarLoop_not_found
  intro i hi
  have hh := h (i + 1) (by omega)
  have harith : t + 2 * (i + 1) = t + 2 + 2 * i := by ring
  rw [harith] at hh
  exact hh

theorem renombrar_trace (o : FSOracle) (a b : PyPath) (d : Nat) (st : Stats) :
    (renombrar_archivo o a b d st).2.2 = [FEv.renameOp a b] := by
  unfold renombrar_archivo
  by_cases h1 : o.renameOk = true
  · rw [if_pos h1]
    by_cases h2 : o.existsAfterRename = true
    · rw [if_pos h2]
    · rw [if_neg h2]
  · rw [if_neg h1]

/- ===== Theorems: C3 ===== -/

/-- C3: the rename of a recorded file is attempted only when the recorded
file's path exists — `gestionar_archivo_grabado` checks the path once and
then with at most 5 additional attempts at fixed 2-second intervals
(checks at `t+2`, `t+4`, ..., at most 6 of them), and if the path still
does not exist at any check it returns False without attempting a
rename. -/
theorem C3_rename_solo_si_existe (o : FSOracle) (cfg : Config) (t : Nat)
    (ruta_original ruta_modulo : PyPath) (titulo_video : String)
    (numero_video duracion_segundos : Nat) (st : Stats) :
    (tiemposCheck (gestionar_archivo_grabado o cfg t ruta_original ruta_modulo
        titulo_video numero_video duracion_segundos st).2.2).head? = some (t + 2) ∧
    List.Chain' (fun a b => b = a + 2)
      (tiemposCheck (gestionar_archivo_grabado o cfg t ruta_original ruta_modulo
        titulo_video numero_video duracion_segundos st).2.2) ∧
    (tiemposCheck (gestionar_archivo_grabado o cfg t ruta_original ruta_modulo
        titulo_video numero_video duracion_segundos st).2.2).length ≤ 6 ∧
    (∀ k, FEv.sleep k ∈ (gestionar_archivo_grabado o cfg t ruta_original ruta_modulo
        titulo_video numero_video duracion_segundos st).2.2 → k = 2) ∧
    ((∀ i, i < 6 → o.existsAt (t + 2 + 2 * i) = false) →
      (gestionar_archivo_grabado o cfg t ruta_original ruta_modulo titulo_video
        numero_video duracion_segundos st).1 = false ∧
      ∀ e ∈ (gestionar_archivo_grabado o cfg t ruta_original ruta_modulo titulo_video
        numero_video duracion_segundos st).2.2, esRename e = false) := by
  obtain ⟨hEc, hEh, hEl⟩ := esperar_tiempos o.existsAt (t + 2)
  by_cases hf : (esperar_archivo o.existsAt (t + 2)).1 = true
  · have hTr : (gestionar_archivo_grabado o cfg t ruta_original ruta_modulo titulo_video
        numero_video duracion_segundos st).2.2 =
        (FEv.sleep 2 :: (esperar_archivo o.existsAt (t + 2)).2.2) ++
        (if o.nuevaExists then [FEv.unlink (generar_ruta_archivo cfg ruta_original
          ruta_modulo titulo_video numero_video)] else []) ++
        [FEv.renameOp ruta_original (generar_ruta_archivo cfg ruta_original ruta_modulo
          titulo_video numero_video)] := by
      simp only [gestionar_archivo_grabado]
      rw [if_pos hf, renombrar_trace]
    have hTi : tiemposCheck (gestionar_archivo_grabado o cfg t ruta_original ruta_modulo
        titulo_video numero_video duracion_segundos st).2.2 =
        tiemposCheck (esperar_archivo o.existsAt (t + 2)).2.2 := by
      rw [hTr]
      by_cases hN : o.nuevaExists = true
      · rw [if_pos hN]
        simp [tiemposCheck, List.filterMap_append]
      · rw [if_neg hN]
        simp [tiemposCheck, List.filterMap_append]
    refine ⟨by rw [hTi]; exact hEh, by rw [hTi]; exact hEc, by rw [hTi]; exact hEl, ?_, ?_⟩
    · intro k hk
      rw [hTr] at hk
      simp only [List.mem_append, List.mem_cons, List.not_mem_nil, or_false] at hk
      rcases hk with ((hk | hk) | hk) | hk
      · injection hk
      · rcases esperar_mem o.existsAt (t + 2) _ hk with h | ⟨u, h⟩
        · injection h
        · simp at h
      · by_cases hN : o.nuevaExists = true
        · rw [if_pos hN] at hk
          simp at hk
        · rw [if_neg hN] at hk
          simp at hk
      · simp at hk
    · intro hno
      have hnf : (esperar_archivo o.existsAt (t + 2)).1 = false :=
        esperar_not_found o.existsAt (t + 2) hno
      rw [hf] at hnf
      exact absurd hnf (by simp)
  · have hf' : (esperar_archivo o.existsAt (t + 2)).1 = false := Bool.eq_false_iff.mpr hf
    have hTr : (gestionar_archivo_grabado o cfg t ruta_original ruta_modulo titulo_video
        numero_video duracion_segundos st).2.2 =
        FEv.sleep 2 :: (esperar_archivo o.existsAt (t + 2)).2.2 := by
      simp only [gestionar_archivo_grabado]
      rw [if_neg hf]
    have hRe : (gestionar_archivo_grabado o cfg t ruta_original ruta_modulo titulo_video
        numero_video duracion_segundos st).1 = false := by
      simp only [gestionar_archivo_grabado]
      rw [if_neg hf]
    have hTi : tiemposCheck (gestionar_archivo_grabado o cfg t ruta_original ruta_modulo
        titulo_video numero_video duracion_segundos st).2.2 =
        tiemposCheck (esperar_archivo o.existsAt (t + 2)).2.2 := by
      rw [hTr]
      simp [tiemposCheck]
    refine ⟨by rw [hTi]; exact hEh, by rw [hTi]; exact hEc, by rw [hTi]; exact hEl, ?_, ?_⟩
    · intro k hk
      rw [hTr] at hk
      simp only [List.mem_cons] at hk
      rcases hk with hk | hk
      · injection hk
      · rcases esperar_mem o.existsAt (t + 2) _ hk with h | ⟨u, h⟩
        · injection h
        · simp at h
    · intro _
      refine ⟨hRe, ?_⟩
      intro e he
      rw [hTr] at he
      simp only [List.mem_cons] at he
      rcases he with he | he
      · rw [he]; rfl
      · rcases esperar_mem o.existsAt (t + 2) _ he with h | ⟨u, h⟩
        · rw [h]; rfl
        · rw [h]; rfl

/-- Witness for C3 at a concrete input where the file never appears. -/
theorem C3_rename_witness :
    (tiemposCheck (gestionar_archivo_grabado ⟨fun _ => false, false, true, true, 9⟩ configPy 0
        ["tmp", "r.mkv"] ["M"] "t" 1 30 estadisticas_iniciales).2.2).head? = some (0 + 2) ∧
    List.Chain' (fun a b => b = a + 2)
      (tiemposCheck (gestionar_archivo_grabado ⟨fun _ => false, false, true, true, 9⟩ configPy 0
        ["tmp", "r.mkv"] ["M"] "t" 1 30 estadisticas_iniciales).2.2) ∧
    (tiemposCheck (gestionar_archivo_grabado ⟨fun _ => false, false, true, true, 9⟩ configPy 0
        ["tmp", "r.mkv"] ["M"] "t" 1 30 estadisticas_iniciales).2.2).length ≤ 6 ∧
    (∀ k, FEv.sleep k ∈ (gestionar_archivo_grabado ⟨fun _ => false, false, true, true, 9⟩ configPy 0
        ["tmp", "r.mkv"] ["M"] "t" 1 30 estadisticas_iniciales).2.2 → k = 2) ∧
    ((∀ i, i < 6 → (fun _ => false : Nat → Bool) (0 + 2 + 2 * i) = false) →
      (gestionar_archivo_grabado ⟨fun _ => false, false, true, true, 9⟩ configPy 0
        ["tmp", "r.mkv"] ["M"] "t" 1 30 estadisticas_iniciales).1 = false ∧
      ∀ e ∈ (gestionar_archivo_grabado ⟨fun _ => false, false, true, true, 9⟩ configPy 0
        ["tmp", "r.mkv"] ["M"] "t" 1 30 estadisticas_iniciales).2.2, esRename e = false) :=
  C3_rename_solo_si_existe ⟨fun _ => false, false, true, true, 9⟩ configPy 0
    ["tmp", "r.mkv"] ["M"] "t" 1 30 estadisticas_iniciales

/- ===== Theorems: C10 ===== -/

/-- C10: statistics updates are atomic with success — whenever
`gestionar_archivo_grabado` returns False (the file never appears, the
rename raises, or the renamed file is missing afterwards), the shared
statistics are left exactly as they were before the call. -/
theorem C10_estadisticas_atomicas (o : FSOracle) (cfg : Config) (t : Nat)
    (ruta_original ruta_modulo : PyPath) (titulo_video : String)
    (numero_video duracion_segundos : Nat) (st : Stats)
    (hf : (gestionar_archivo_grabado o cfg t ruta_original ruta_modulo titulo_video
      numero_video duracion_segundos st).1 = false) :
    (gestionar_archivo_grabado o cfg t ruta_original ruta_modulo titulo_video
      numero_video duracion_segundos st).2.1 = st := by
  by_cases he : (esperar_archivo o.existsAt (t + 2)).1 = true
  · simp only [gestionar_archivo_grabado] at hf ⊢
    rw [if_pos he] at hf ⊢
    unfold renombrar_archivo at hf ⊢
    by_cases h1 : o.renameOk = true
    · rw [if_pos h1] at hf ⊢
      by_cases h2 : o.existsAfterRename = true
      · rw [if_pos h2] at hf
        simp at hf
      · rw [if_neg h2]
    · rw [if_neg h1]
  · simp only [gestionar_archivo_grabado]
    rw [if_neg he]

/-- Witness for C10 at a concrete failing call. -/
theorem C10_estadisticas_witness :
    (gestionar_archivo_grabado ⟨fun _ => false, false, true, true, 9⟩ configPy 0
      ["tmp", "r.mkv"] ["M"] "t" 1 30 estadisticas_iniciales).2.1 = estadisticas_iniciales :=
  C10_estadisticas_atomicas ⟨fun _ => false, false, true, true, 9⟩ configPy 0
    ["tmp", "r.mkv"] ["M"] "t" 1 30 estadisticas_iniciales (by decide)

/- ===== Theorems: C5 ===== -/

/-- C5: the statistics counter accumulates monotonically and its four
fields are updated together — each successful rename increments the count
by exactly 1, adds the video's duration, adds the renamed file's size, and
appends exactly one path; a failed rename changes nothing; the summary's
byte-total write only grows the byte field and touches nothing else; the
count always equals the length of the recorded-paths list, starting from
the all-zero initial statistics. -/
theorem C5_estadisticas_monotonas (o : FSOracle) (ruta_original nueva_ruta : PyPath)
    (duracion_segundos tamano_calculado : Nat) (st : Stats) :
    ((renombrar_archivo o ruta_original nueva_ruta duracion_segundos st).1 = true →
      (renombrar_archivo o ruta_original nueva_ruta duracion_segundos st).2.1 =
        ⟨st.videos_grabados + 1, st.duracion_total_segundos + duracion_segundos,
          st.tamano_total_bytes + o.fileSize, st.archivos_grabados ++ [nueva_ruta]⟩) ∧
    ((renombrar_archivo o ruta_original nueva_ruta duracion_segundos st).1 = false →
      (renombrar_archivo o ruta_original nueva_ruta duracion_segundos st).2.1 = st) ∧
    (st.videos_grabados ≤
        (renombrar_archivo o ruta_original nueva_ruta duracion_segundos st).2.1.videos_grabados ∧
      st.duracion_total_segundos ≤
        (renombrar_archivo o ruta_original nueva_ruta duracion_segundos st).2.1.duracion_total_segundos ∧
      st.tamano_total_bytes ≤
        (renombrar_archivo o ruta_original nueva_ruta duracion_segundos st).2.1.tamano_total_bytes ∧
      ∃ l, (renombrar_archivo o ruta_original nueva_ruta duracion_segundos st).2.1.archivos_grabados =
        st.archivos_grabados ++ l) ∧
    (st.videos_grabados = st.archivos_grabados.length →
      (renombrar_archivo o ruta_original nueva_ruta duracion_segundos st).2.1.videos_grabados =
        (renombrar_archivo o ruta_original nueva_ruta duracion_segundos st).2.1.archivos_grabados.length) ∧
    (st.tamano_total_bytes ≤ (resumen_actualizar_tamano tamano_calculado st).tamano_total_bytes ∧
      (resumen_actualizar_tamano tamano_calculado st).videos_grabados = st.videos_grabados ∧
      (resumen_actualizar_tamano tamano_calculado st).duracion_total_segundos =
        st.duracion_total_segundos ∧
      (resumen_actualizar_tamano tamano_calculado st).archivos_grabados = st.archivos_grabados) ∧
    (st.videos_grabados = st.archivos_grabados.length →
      (resumen_actualizar_tamano tamano_calculado st).videos_grabados =
        (resumen_actualizar_tamano tamano_calculado st).archivos_grabados.length) ∧
    estadisticas_iniciales.videos_grabados = estadisticas_iniciales.archivos_grabados.length := by
  have hren : ((renombrar_archivo o ruta_original nueva_ruta duracion_segundos st).1 = true →
      (renombrar_archivo o ruta_original nueva_ruta duracion_segundos st).2.1 =
        ⟨st.videos_grabados + 1, st.duracion_total_segundos + duracion_segundos,
          st.tamano_total_bytes + o.fileSize, st.archivos_grabados ++ [nueva_ruta]⟩) ∧
      ((renombrar_archivo o ruta_original nueva_ruta duracion_segundos st).1 = false →
        (renombrar_archivo o ruta_original nueva_ruta duracion_segundos st).2.1 = st) ∧
      (st.videos_grabados ≤
          (renombrar_archivo o ruta_original nueva_ruta duracion_segundos st).2.1.videos_grabados ∧
        st.duracion_total_segundos ≤
          (renombrar_archivo o ruta_original nueva_ruta duracion_segundos st).2.1.duracion_total_segundos ∧
        st.tamano_total_bytes ≤
          (renombrar_archivo o ruta_original nueva_ruta duracion_segundos st).2.1.tamano_total_bytes ∧
        ∃ l, (renombrar_archivo o ruta_original nueva_ruta duracion_segundos st).2.1.archivos_grabados =
          st.archivos_grabados ++ l) ∧
      (st.videos_grabados = st.archivos_grabados.length →
        (renombrar_archivo o ruta_original nueva_ruta duracion_segundos st).2.1.videos_grabados =
          (renombrar_archivo o ruta_original nueva_ruta duracion_segundos st).2.1.archivos_grabados.length) := by
    unfold renombrar_archivo
    by_cases h1 : o.renameOk = true
    · rw [if_pos h1]
      by_cases h2 : o.existsAfterRename = true
      · rw [if_pos h2]
        refine ⟨fun _ => rfl, fun hcon => by simp at hcon,
          ⟨?_, ?_, ?_, ⟨[nueva_ruta], rfl⟩⟩, ?_⟩
        · show st.videos_grabados ≤ st.videos_grabados + 1
          omega
        · show st.duracion_total_segundos ≤ st.duracion_total_segundos + duracion_segundos
          omega
        · show st.tamano_total_bytes ≤ st.tamano_total_bytes + o.fileSize
          omega
        · intro h
          show st.videos_grabados + 1 = (st.archivos_grabados ++ [nueva_ruta]).length
          rw [List.length_append]
          simp
          omega
      · rw [if_neg h2]
        exact ⟨fun hcon => by simp at hcon, fun _ => rfl,
          ⟨le_refl _, le_refl _, le_refl _, ⟨[], by simp⟩⟩, fun h => h⟩
    · rw [if_neg h1]
      exact ⟨fun hcon => by simp at hcon, fun _ => rfl,
        ⟨le_refl _, le_refl _, le_refl _, ⟨[], by simp⟩⟩, fun h => h⟩
  have hsum : (st.tamano_total_bytes ≤
        (resumen_actualizar_tamano tamano_calculado st).tamano_total_bytes ∧
      (resumen_actualizar_tamano tamano_calculado st).videos_grabados = st.videos_grabados ∧
      (resumen_actualizar_tamano tamano_calculado st).duracion_total_segundos =
        st.duracion_total_segundos ∧
      (resumen_actualizar_tamano tamano_calculado st).archivos_grabados =
        st.archivos_grabados) ∧
      (st.videos_grabados = st.archivos_grabados.length →
        (resumen_actualizar_tamano tamano_calculado st).videos_grabados =
          (resumen_actualizar_tamano tamano_calculado st).archivos_grabados.length) := by
    unfold resumen_actualizar_tamano
    by_cases h3 : st.tamano_total_bytes < tamano_calculado
    · rw [if_pos h3]
      exact ⟨⟨le_of_lt h3, rfl, rfl, rfl⟩, fun h => h⟩
    · rw [if_neg h3]
      exact ⟨⟨le_refl _, rfl, rfl, rfl⟩, fun h => h⟩
  exact ⟨hren.1, hren.2.1, hren.2.2.1, hren.2.2.2, hsum.1, hsum.2, rfl⟩

/-- Witness for C5 at a concrete successful rename. -/
theorem C5_estadisticas_witness :
    (renombrar_archivo ⟨fun _ => true, false, true, true, 9⟩ ["tmp", "r.mkv"] ["M", "01_t.mkv"]
        30 estadisticas_iniciales).2.1 =
      ⟨estadisticas_iniciales.videos_grabados + 1,
        estadisticas_iniciales.duracion_total_segundos + 30,
        estadisticas_iniciales.tamano_total_bytes + 9,
        estadisticas_iniciales.archivos_grabados ++ [["M", "01_t.mkv"]]⟩ :=
  (C5_estadisticas_monotonas ⟨fun _ => true, false, true, true, 9⟩ ["tmp", "r.mkv"]
    ["M", "01_t.mkv"] 30 0 estadisticas_iniciales).1 (by decide)

/- ===== Theorems: C7 ===== -/

/-- C7: every rename performed by `gestionar_archivo_grabado` moves the
recorded file into the module folder under the name
`{NN}_{sanitized title}{suffix}{extension}`: two-digit zero-padded video
number, title sanitized by `sanitizar_nombre_archivo`, `_PRUEBA` exactly
when test mode is enabled, and the recorded file's original extension. -/
theorem C7_archivo_renombrado_formato (o : FSOracle) (cfg : Config) (t : Nat)
    (ruta_original ruta_modulo : PyPath) (titulo_video : String)
    (numero_video duracion_segundos : Nat) (st : Stats) (src tgt : PyPath)
    (hmem : FEv.renameOp src tgt ∈ (gestionar_archivo_grabado o cfg t ruta_original
      ruta_modulo titulo_video numero_video duracion_segundos st).2.2) :
    src = ruta_original ∧
    tgt = ruta_modulo ++ [format02d numero_video ++ "_" ++
      sanitizar_nombre_archivo titulo_video ++
      (if cfg.modoPrueba then "_PRUEBA" else "") ++ pySuffix ruta_original] := by
  by_cases hf : (esperar_archivo o.existsAt (t + 2)).1 = true
  · simp only [gestionar_archivo_grabado] at hmem
    rw [if_pos hf, renombrar_trace] at hmem
    simp only [List.mem_append, List.mem_cons, List.not_mem_nil, or_false] at hmem
    rcases hmem with ((h | h) | h) | h
    · simp at h
    · rcases esperar_mem o.existsAt (t + 2) _ h with h' | ⟨u, h'⟩
      · simp at h'
      · simp at h'
    · by_cases hN : o.nuevaExists = true
      · rw [if_pos hN] at h
        simp at h
      · rw [if_neg hN] at h
        simp at h
    · have h1 : src = ruta_original := by injection h
      have h2 : tgt = generar_ruta_archivo cfg ruta_original ruta_modulo titulo_video
          numero_video := by injection h
      exact ⟨h1, h2⟩
  · simp only [gestionar_archivo_grabado] at hmem
    rw [if_neg hf] at hmem
    simp only [List.mem_cons] at hmem
    rcases hmem with h | h
    · simp at h
    · rcases esperar_mem o.existsAt (t + 2) _ h with h' | ⟨u, h'⟩
      · simp at h'
      · simp at h'

/-- Witness for C7 at a concrete successful run. -/
theorem C7_archivo_renombrado_witness :
    ["tmp", "r.mkv"] = (["tmp", "r.mkv"] : PyPath) ∧
    (["M", "01_t.mkv"] : PyPath) = ["M"] ++ [format02d 1 ++ "_" ++
      sanitizar_nombre_archivo "t" ++
      (if configPy.modoPrueba then "_PRUEBA" else "") ++ pySuffix ["tmp", "r.mkv"]] :=
  C7_archivo_renombrado_formato ⟨fun _ => true, false, true, true, 9⟩ configPy 0
    ["tmp", "r.mkv"] ["M"] "t" 1 30 estadisticas_iniciales
    ["tmp", "r.mkv"] ["M", "01_t.mkv"] (by decide)


/- ===== Theorems: procesar_video case enumeration ===== -/

theorem outcome_ok (x : Outcome) (hr : x ≠ Outcome.raise) (he : x ≠ Outcome.err) :
    x = Outcome.ok := by
  cases x with
  | ok => rfl
  | err => exact absurd rfl he
  | raise => exact absurd rfl hr

theorem procesar_video_casos (o : VOracle) (P : Bool × List VEv → Prop)
    (c1 : o.configurarDir = Outcome.raise →
      P (false, [VEv.paso Paso.configDir, VEv.obsStop]))
    (c2 : o.configurarDir = Outcome.err → P (false, [VEv.paso Paso.configDir]))
    (c3 : o.iniciarGrab = Outcome.raise →
      P (false, [VEv.paso Paso.configDir, VEv.paso Paso.startRec, VEv.obsStop]))
    (c4 : o.iniciarGrab = Outcome.err →
      P (false, [VEv.paso Paso.configDir, VEv.paso Paso.startRec]))
    (c5 : o.margenIni = Outcome.raise →
      P (false, [VEv.paso Paso.configDir, VEv.paso Paso.startRec, VEv.obsStart,
        VEv.paso Paso.waitIni, VEv.obsStop]))
    (c6 : o.cargarUrl = Outcome.raise →
      P (false, [VEv.paso Paso.configDir, VEv.paso Paso.startRec, VEv.obsStart,
        VEv.paso Paso.waitIni, VEv.paso Paso.loadUrl, VEv.obsStop]))
    (c7 : o.cargarUrl = Outcome.err →
      P (false, [VEv.paso Paso.configDir, VEv.paso Paso.startRec, VEv.obsStart,
        VEv.paso Paso.waitIni, VEv.paso Paso.loadUrl, VEv.obsStop]))
    (c8 : o.reproducir = Outcome.raise →
      P (false, [VEv.paso Paso.configDir, VEv.paso Paso.startRec, VEv.obsStart,
        VEv.paso Paso.waitIni, VEv.paso Paso.loadUrl, VEv.paso Paso.play, VEv.obsStop]))
    (c9 : o.pantallaCompleta = Outcome.raise →
      P (false, [VEv.paso Paso.configDir, VEv.paso Paso.startRec, VEv.obsStart,
        VEv.paso Paso.waitIni, VEv.paso Paso.loadUrl, VEv.paso Paso.play,
        VEv.paso Paso.fullscreen, VEv.obsStop]))
    (c10 : o.obtenerInfo = Outcome.raise →
      P (false, [VEv.paso Paso.configDir, VEv.paso Paso.startRec, VEv.obsStart,
        VEv.paso Paso.waitIni, VEv.paso Paso.loadUrl, VEv.paso Paso.play,
        VEv.paso Paso.fullscreen, VEv.paso Paso.fetchInfo, VEv.obsStop]))
    (c11 : o.monitorear = Outcome.raise →
      P (false, [VEv.paso Paso.configDir, VEv.paso Paso.startRec, VEv.obsStart,
        VEv.paso Paso.waitIni, VEv.paso Paso.loadUrl, VEv.paso Paso.play,
        VEv.paso Paso.fullscreen, VEv.paso Paso.fetchInfo, VEv.paso Paso.monitor,
        VEv.obsStop]))
    (c12 : o.margenFin = Outcome.raise →
      P (false, [VEv.paso Paso.configDir, VEv.paso Paso.startRec, VEv.obsStart,
        VEv.paso Paso.waitIni, VEv.paso Paso.loadUrl, VEv.paso Paso.play,
        VEv.paso Paso.fullscreen, VEv.paso Paso.fetchInfo, VEv.paso Paso.monitor,
        VEv.paso Paso.waitFin, VEv.obsStop]))
    (c13 : o.rutaGrabada = none →
      P (false, [VEv.paso Paso.configDir, VEv.paso Paso.startRec, VEv.obsStart,
        VEv.paso Paso.waitIni, VEv.paso Paso.loadUrl, VEv.paso Paso.play,
        VEv.paso Paso.fullscreen, VEv.paso Paso.fetchInfo, VEv.paso Paso.monitor,
        VEv.paso Paso.waitFin, VEv.paso Paso.stopRec, VEv.obsStop]))
    (c14 : o.gestionarArchivo = Outcome.raise →
      P (false, [VEv.paso Paso.configDir, VEv.paso Paso.startRec, VEv.obsStart,
        VEv.paso Paso.waitIni, VEv.paso Paso.loadUrl, VEv.paso Paso.play,
        VEv.paso Paso.fullscreen, VEv.paso Paso.fetchInfo, VEv.paso Paso.monitor,
        VEv.paso Paso.waitFin, VEv.paso Paso.stopRec, VEv.obsStop,
        VEv.paso Paso.renameFile, VEv.obsStop]))
    (c15 : o.gestionarArchivo = Outcome.err →
      P (false, [VEv.paso Paso.configDir, VEv.paso Paso.startRec, VEv.obsStart,
        VEv.paso Paso.waitIni, VEv.paso Paso.loadUrl, VEv.paso Paso.play,
        VEv.paso Paso.fullscreen, VEv.paso Paso.fetchInfo, VEv.paso Paso.monitor,
        VEv.paso Paso.waitFin, VEv.paso Paso.stopRec, VEv.obsStop,
        VEv.paso Paso.renameFile]))
    (c16 : o.limpiar = Outcome.raise →
      P (false, [VEv.paso Paso.configDir, VEv.paso Paso.startRec, VEv.obsStart,
        VEv.paso Paso.waitIni, VEv.paso Paso.loadUrl, VEv.paso Paso.play,
        VEv.paso Paso.fullscreen, VEv.paso Paso.fetchInfo, VEv.paso Paso.monitor,
        VEv.paso Paso.waitFin, VEv.paso Paso.stopRec, VEv.obsStop,
        VEv.paso Paso.renameFile, VEv.paso Paso.cleanup, VEv.obsStop, VEv.obsStop]))
    (c17 : o.configurarDir ≠ Outcome.raise → o.configurarDir ≠ Outcome.err →
      o.iniciarGrab ≠ Outcome.raise → o.iniciarGrab ≠ Outcome.err →
      o.margenIni ≠ Outcome.raise → o.cargarUrl ≠ Outcome.raise →
      o.cargarUrl ≠ Outcome.err → o.reproducir ≠ Outcome.raise →
      o.pantallaCompleta ≠ Outcome.raise → o.obtenerInfo ≠ Outcome.raise →
      o.monitorear ≠ Outcome.raise → o.margenFin ≠ Outcome.raise →
      o.rutaGrabada ≠ none → o.gestionarArchivo ≠ Outcome.raise →
      o.gestionarArchivo ≠ Outcome.err → o.limpiar ≠ Outcome.raise →
      P (true, [VEv.paso Paso.configDir, VEv.paso Paso.startRec, VEv.obsStart,
        VEv.paso Paso.waitIni, VEv.paso Paso.loadUrl, VEv.paso Paso.play,
        VEv.paso Paso.fullscreen, VEv.paso Paso.fetchInfo, VEv.paso Paso.monitor,
        VEv.paso Paso.waitFin, VEv.paso Paso.stopRec, VEv.obsStop,
        VEv.paso Paso.renameFile, VEv.paso Paso.cleanup, VEv.obsStop])) :
    P (procesar_video o) := by
  simp only [procesar_video]
  by_cases h1 : o.configurarDir = Outcome.raise
  · rw [if_pos h1]; exact c1 h1
  · rw [if_neg h1]
    by_cases h2 : o.configurarDir = Outcome.err
    · rw [if_pos h2]; exact c2 h2
    · rw [if_neg h2]
      by_cases h3 : o.iniciarGrab = Outcome.raise
      · rw [if_pos h3]; exact c3 h3
      · rw [if_neg h3]
        by_cases h4 : o.iniciarGrab = Outcome.err
        · rw [if_pos h4]; exact c4 h4
        · rw [if_neg h4]
          by_cases h5 : o.margenIni = Outcome.raise
          · rw [if_pos h5]; exact c5 h5
          · rw [if_neg h5]
            by_cases h6 : o.cargarUrl = Outcome.raise
            · rw [if_pos h6]; exact c6 h6
            · rw [if_neg h6]
              by_cases h7 : o.cargarUrl = Outcome.err
              · rw [if_pos h7]; exact c7 h7
              · rw [if_neg h7]
                by_cases h8 : o.reproducir = Outcome.raise
                · rw [if_pos h8]; exact c8 h8
                · rw [if_neg h8]
                  by_cases h9 : o.pantallaCompleta = Outcome.raise
                  · rw [if_pos h9]; exact c9 h9
                  · rw [if_neg h9]
                    by_cases h10 : o.obtenerInfo = Outcome.raise
                    · rw [if_pos h10]; exact c10 h10
                    · rw [if_neg h10]
                      by_cases h11 : o.monitorear = Outcome.raise
                      · rw [if_pos h11]; exact c11 h11
                      · rw [if_neg h11]
                        by_cases h12 : o.margenFin = Outcome.raise
                        · rw [if_pos h12]; exact c12 h12
                        · rw [if_neg h12]
                          by_cases h13 : o.rutaGrabada = none
                          · rw [if_pos h13]; exact c13 h13
                          · rw [if_neg h13]
                            by_cases h14 : o.gestionarArchivo = Outcome.raise
                            · rw [if_pos h14]; exact c14 h14
                            · rw [if_neg h14]
                              by_cases h15 : o.gestionarArchivo = Outcome.err
                              · rw [if_pos h15]; exact c15 h15
                              · rw [if_neg h15]
                                by_cases h16 : o.limpiar = Outcome.raise
                                · rw [if_pos h16]; exact c16 h16
                                · rw [if_neg h16]
                                  exact c17 h1 h2 h3 h4 h5 h6 h7 h8 h9 h10 h11 h12
                                    h13 h14 h15 h16

/- ===== Theorems: C1 ===== -/

/-- C1: for every video processed, `procesar_video` attempts its steps in
exactly the specified order — configure directory, start recording, wait
initial margin, load URL, play, fullscreen, fetch metadata, monitor
playback, wait final margin, stop recording, rename, cleanup — the
attempted steps always form a prefix of that order (so no later step runs
once an earlier fatal step has failed), and a successful call runs them
all. -/
theorem C1_pasos_en_orden (o : VOracle) :
    pasosDe (procesar_video o).2 =
      canonicalPasos.take (pasosDe (procesar_video o).2).length ∧
    ((procesar_video o).1 = true → pasosDe (procesar_video o).2 = canonicalPasos) :=
  procesar_video_casos o
    (fun r => pasosDe r.2 = canonicalPasos.take (pasosDe r.2).length ∧
      (r.1 = true → pasosDe r.2 = canonicalPasos))
    (fun _ => by decide) (fun _ => by decide) (fun _ => by decide) (fun _ => by decide)
    (fun _ => by decide) (fun _ => by decide) (fun _ => by decide) (fun _ => by decide)
    (fun _ => by decide) (fun _ => by decide) (fun _ => by decide) (fun _ => by decide)
    (fun _ => by decide) (fun _ => by decide) (fun _ => by decide) (fun _ => by decide)
    (fun _ _ _ _ _ _ _ _ _ _ _ _ _ _ _ _ => by decide)

/-- Witness for C1 at a concrete fully successful run. -/
theorem C1_pasos_witness :
    pasosDe (procesar_video ⟨Outcome.ok, Outcome.ok, Outcome.ok, Outcome.ok, Outcome.ok,
      Outcome.ok, Outcome.ok, "t", 30, Outcome.ok, Outcome.ok, some "p", Outcome.ok,
      Outcome.ok⟩).2 = canonicalPasos :=
  (C1_pasos_en_orden ⟨Outcome.ok, Outcome.ok, Outcome.ok, Outcome.ok, Outcome.ok,
    Outcome.ok, Outcome.ok, "t", 30, Outcome.ok, Outcome.ok, some "p", Outcome.ok,
    Outcome.ok⟩).2 (by decide)

/- ===== Theorems: C4 ===== -/

/-- C4: recording is never left active after a video is processed — on
every exit path of `procesar_video` (success, a fatal step returning
False, or an exception), a recording started during the call has been
stopped by a call to `detener_grabacion` or
`asegurar_grabacion_detenida` before the call returns. -/
theorem C4_grabacion_siempre_detenida (o : VOracle) :
    replayActivo (procesar_video o).2 = false :=
  procesar_video_casos o (fun r => replayActivo r.2 = false)
    (fun _ => by decide) (fun _ => by decide) (fun _ => by decide) (fun _ => by decide)
    (fun _ => by decide) (fun _ => by decide) (fun _ => by decide) (fun _ => by decide)
    (fun _ => by decide) (fun _ => by decide) (fun _ => by decide) (fun _ => by decide)
    (fun _ => by decide) (fun _ => by decide) (fun _ => by decide) (fun _ => by decide)
    (fun _ _ _ _ _ _ _ _ _ _ _ _ _ _ _ _ => by decide)

/- ===== Theorems: C6 ===== -/

/-- C6: per-step failures fall into exactly two classes — a failure to
configure the recording directory, start recording, load the URL, or
finalize (no recorded path, or the file manager failing) makes
`procesar_video` return False, while failures to play, enter fullscreen,
or fetch the title or duration are non-fatal: the call still succeeds, and
the metadata falls back to the defaults `"video_sin_titulo"` and 60
seconds under the shipped configuration. -/
theorem C6_clasificacion_fallos (o : VOracle) (r : String) :
    ((procesar_video o).1 = true →
      o.configurarDir = Outcome.ok ∧ o.iniciarGrab = Outcome.ok ∧
      o.cargarUrl = Outcome.ok ∧ o.rutaGrabada ≠ none ∧
      o.gestionarArchivo = Outcome.ok) ∧
    (o.configurarDir = Outcome.ok → o.iniciarGrab = Outcome.ok →
      o.margenIni ≠ Outcome.raise → o.cargarUrl = Outcome.ok →
      o.reproducir ≠ Outcome.raise → o.pantallaCompleta ≠ Outcome.raise →
      o.obtenerInfo ≠ Outcome.raise → o.monitorear ≠ Outcome.raise →
      o.margenFin ≠ Outcome.raise → o.rutaGrabada = some r →
      o.gestionarArchivo = Outcome.ok → o.limpiar ≠ Outcome.raise →
      (procesar_video o).1 = true) ∧
    (o.titulo = "" → o.duracion = 0 →
      obtener_informacion_video configPy o = ("video_sin_titulo", 60)) := by
  refine ⟨?_, ?_, ?_⟩
  · exact procesar_video_casos o
      (fun res => res.1 = true →
        o.configurarDir = Outcome.ok ∧ o.iniciarGrab = Outcome.ok ∧
        o.cargarUrl = Outcome.ok ∧ o.rutaGrabada ≠ none ∧
        o.gestionarArchivo = Outcome.ok)
      (fun _ hres => absurd hres (by decide)) (fun _ hres => absurd hres (by decide))
      (fun _ hres => absurd hres (by decide)) (fun _ hres => absurd hres (by decide))
      (fun _ hres => absurd hres (by decide)) (fun _ hres => absurd hres (by decide))
      (fun _ hres => absurd hres (by decide)) (fun _ hres => absurd hres (by decide))
      (fun _ hres => absurd hres (by decide)) (fun _ hres => absurd hres (by decide))
      (fun _ hres => absurd hres (by decide)) (fun _ hres => absurd hres (by decide))
      (fun _ hres => absurd hres (by decide)) (fun _ hres => absurd hres (by decide))
      (fun _ hres => absurd hres (by decide)) (fun _ hres => absurd hres (by decide))
      (fun n1 n2 n3 n4 _ n6 n7 _ _ _ _ _ n13 n14 n15 _ _ =>
        ⟨outcome_ok _ n1 n2, outcome_ok _ n3 n4, outcome_ok _ n6 n7, n13,
          outcome_ok _ n14 n15⟩)
  · intro h1 h2 h3 h4 h5 h6 h7 h8 h9 h10 h11 h12
    simp only [procesar_video]
    rw [if_neg (by rw [h1]; decide), if_neg (by rw [h1]; decide),
      if_neg (by rw [h2]; decide), if_neg (by rw [h2]; decide),
      if_neg h3,
      if_neg (by rw [h4]; decide), if_neg (by rw [h4]; decide),
      if_neg h5, if_neg h6, if_neg h7, if_neg h8, if_neg h9,
      if_neg (by rw [h10]; exact fun hc => Option.noConfusion hc),
      if_neg (by rw [h11]; decide), if_neg (by rw [h11]; decide),
      if_neg h12]
  · intro hti hdu
    simp [obtener_informacion_video, configPy, hti, hdu]

/-- Witness for C6: a run where play and fullscreen fail but everything
fatal succeeds still returns True. -/
theorem C6_clasificacion_witness :
    (procesar_video ⟨Outcome.ok, Outcome.ok, Outcome.ok, Outcome.ok, Outcome.err,
      Outcome.err, Outcome.ok, "", 0, Outcome.ok, Outcome.ok, some "p", Outcome.ok,
      Outcome.ok⟩).1 = true :=
  (C6_clasificacion_fallos ⟨Outcome.ok, Outcome.ok, Outcome.ok, Outcome.ok, Outcome.err,
    Outcome.err, Outcome.ok, "", 0, Outcome.ok, Outcome.ok, some "p", Outcome.ok,
    Outcome.ok⟩ "p").2.1 rfl rfl (by decide) rfl (by decide) (by decide) (by decide)
    (by decide) (by decide) rfl rfl (by decide)
